import Mathlib

/-!
Verification development for the kenbot-api repository.

The repository ships one source file, `src/api.py`: a FastAPI glue layer over
a core module `runner` (not part of the sources). The glue-layer functions
(`_apply_options`, `run_all`, `force_stock`, `cache_one_sticker`,
`posts_sample`, `inventory_sample`, the per-step endpoints) are embedded
below directly from `src/api.py`. The core operations that `runner` would
provide (reconcile, the SOLD/RESTORED/PRICE_CHANGED transitions,
`ensure_sticker_cached`) are modelled from the specification, each marked
`Modelled from the spec:` in its doc comment.
-/

namespace Kenbot

/-! ## Python string primitives

Python strings are embedded as Lean `String` (a wrapper over `List Char`),
with the `str.strip` / `str.upper` operations and string truthiness used by
`src/api.py` defined explicitly. -/

/-- The whitespace set of Python `str.strip` with no argument
(space, tab, newline, carriage return, vertical tab, form feed). -/
def pyIsSpace (c : Char) : Bool :=
  c = ' ' || c = '\t' || c = '\n' || c = '\r' || c = '\x0b' || c = '\x0c'

/-- Python `s.strip()` on the underlying character list: drop whitespace
from both ends. -/
def pyStripList (l : List Char) : List Char :=
  ((l.dropWhile pyIsSpace).reverse.dropWhile pyIsSpace).reverse

/-- Python `s.strip()`. -/
def pyStrip (s : String) : String :=
  ⟨pyStripList s.data⟩

/-- Python `s.upper()` (ASCII case mapping, sufficient for VIN / stock ids). -/
def pyUpper (s : String) : String :=
  ⟨s.data.map Char.toUpper⟩

/-- Python `len(s)`. -/
def pyLen (s : String) : Nat :=
  s.data.length

/-! ## Process environment model

`os.environ` is a mutable map from variable names to string values;
`os.environ[k] = v` writes it. Embedded as a total function to
`Option String` (`none` = variable unset) with a functional update. -/

def Env : Type := String → Option String

/-- `os.environ[key] = value`. -/
def setEnv (env : Env) (key value : String) : Env :=
  fun k => if k = key then some value else env k

/-! ## RunOptions and `_apply_options` (src/api.py lines 21-61) -/

/-- The `RunOptions` pydantic model: every field optional, default `None`. -/
structure RunOptions where
  dry_run : Option Bool := none
  max_targets : Option Int := none
  force_stock : Option String := none
  rebuild_posts : Option Bool := none
  rebuild_limit : Option Int := none
deriving Repr, DecidableEq

/-- `_set_env_bool`: skip on `None`, else write `"1"` or `"0"`. -/
def _set_env_bool (env : Env) (key : String) (value : Option Bool) : Env :=
  match value with
  | none => env
  | some b => setEnv env key (if b then "1" else "0")

/-- `_set_env_int`: skip on `None`, else write `str(value)`. -/
def _set_env_int (env : Env) (key : String) (value : Option Int) : Env :=
  match value with
  | none => env
  | some n => setEnv env key (toString n)

/-- `_set_env_str`: skip on `None`, else write the string. -/
def _set_env_str (env : Env) (key : String) (value : Option String) : Env :=
  match value with
  | none => env
  | some s => setEnv env key s

/-- The value `_apply_options` passes for `KENBOT_FORCE_STOCK`:
`(opt.force_stock or "").strip().upper() if opt.force_stock else None`.
Python string truthiness makes both `None` and `""` map to `None`. -/
def forceStockEnvValue (v : Option String) : Option String :=
  match v with
  | none => none
  | some s => if s = "" then none else some (pyUpper (pyStrip s))

/-- `_apply_options(opt)`: writes the five `KENBOT_*` variables from the
option fields, each write skipped when the field is `None` (and, for
`KENBOT_FORCE_STOCK`, also when the field is the empty string). -/
def _apply_options (env : Env) (opt : RunOptions) : Env :=
  let env := _set_env_bool env "KENBOT_DRY_RUN" opt.dry_run
  let env := _set_env_int env "KENBOT_MAX_TARGETS" opt.max_targets
  let env := _set_env_str env "KENBOT_FORCE_STOCK" (forceStockEnvValue opt.force_stock)
  let env := _set_env_bool env "KENBOT_REBUILD_POSTS" opt.rebuild_posts
  let env := _set_env_int env "KENBOT_REBUILD_LIMIT" opt.rebuild_limit
  env

/-! ## Endpoint outcome model

FastAPI endpoint handlers either return a `BasicReply` or raise an
`HTTPException(status_code, detail)`; `_guard(msg)` raises with status 400.
The behaviour of `runner.main()` at the call site is an input to the
embedding: it returns, raises `SystemExit`, or raises another exception. -/

inductive MainOutcome where
  | ok
  | sysExit (msg : String)
  | exc (msg : String)
deriving Repr, DecidableEq

inductive ApiResult where
  | reply (ok : Bool) (message : String)
  | httpError (status : Nat) (detail : String)
  | unhandled (msg : String)
deriving Repr, DecidableEq

/-- `/run` (`run_all`, src/api.py lines 97-109): applies the options to the
process environment, invokes `runner.main()`, and maps its outcome:
normal return gives `ok=True, "run done"`, `SystemExit e` gives
`_guard(str(e))` (HTTP 400), any other exception gives HTTP 500.
The returned pair is (environment after the request, response). -/
def run_all (opt : RunOptions) (env : Env) (outcome : MainOutcome) :
    Env × ApiResult :=
  let env := _apply_options env opt
  match outcome with
  | .ok => (env, .reply true "run done")
  | .sysExit m => (env, .httpError 400 m)
  | .exc m => (env, .httpError 500 m)

/-! ## `/stickers/cache_one` (`cache_one_sticker`, src/api.py lines 242-254)

`if not vin or len(vin.strip()) != 17: _guard("VIN invalide")`, otherwise
`runner.ensure_sticker_cached(sb, vin.strip().upper(), run_id="api")`.
The embedding returns the HTTP 400 guard or the exact VIN argument passed
to `ensure_sticker_cached` (no cache or fetch call happens on the guard
path: the guard raises before the `try` block). -/
def cache_one_sticker (vin : String) : Except (Nat × String) String :=
  if vin = "" || pyLen (pyStrip vin) != 17 then
    .error (400, "VIN invalide")
  else
    .ok (pyUpper (pyStrip vin))

/-! ## `/rebuild/posts`, `/maintenance/rebuild_then_run`,
`/maintenance/disable_rebuild` (src/api.py lines 112-124, 301-322)

Each writes `os.environ` directly and (for the first two) invokes
`runner.main()`. The embeddings return the environment after the request
together with the response. -/

/-- `/rebuild/posts` (`rebuild_posts`): sets `KENBOT_REBUILD_POSTS="1"` and
`KENBOT_REBUILD_LIMIT=str(limit)`, then runs `runner.main()`; ordinary
exceptions give HTTP 500; `SystemExit` is not a Python `Exception`
subclass and is not caught here, so it escapes the handler
(`.unhandled`). -/
def rebuild_posts (limit : Int) (env : Env) (outcome : MainOutcome) :
    Env × ApiResult :=
  let env := setEnv env "KENBOT_REBUILD_POSTS" "1"
  let env := setEnv env "KENBOT_REBUILD_LIMIT" (toString limit)
  match outcome with
  | .ok => (env, .reply true "rebuild posts done")
  | .sysExit m => (env, .unhandled m)
  | .exc m => (env, .httpError 500 m)

/-- `/maintenance/rebuild_then_run` (`rebuild_then_run`): sets
`KENBOT_REBUILD_POSTS="1"`, `KENBOT_REBUILD_LIMIT=str(limit)`,
`KENBOT_MAX_TARGETS=str(max_targets)`, then runs `runner.main()`. -/
def rebuild_then_run (limit max_targets : Int) (env : Env)
    (outcome : MainOutcome) : Env × ApiResult :=
  let env := setEnv env "KENBOT_REBUILD_POSTS" "1"
  let env := setEnv env "KENBOT_REBUILD_LIMIT" (toString limit)
  let env := setEnv env "KENBOT_MAX_TARGETS" (toString max_targets)
  match outcome with
  | .ok => (env, .reply true "rebuild+run done")
  | .sysExit m => (env, .unhandled m)
  | .exc m => (env, .httpError 500 m)

/-- `/maintenance/disable_rebuild` (`disable_rebuild`): sets
`KENBOT_REBUILD_POSTS="0"` and returns. -/
def disable_rebuild (env : Env) : Env × ApiResult :=
  (setEnv env "KENBOT_REBUILD_POSTS" "0", .reply true "rebuild disabled")

/-! ## `/force/stock` (`force_stock`, src/api.py lines 226-239) -/

/-- The default of the `dry_run` query parameter of `/force/stock`
(`dry_run: bool = False`). -/
def force_stock_default_dry_run : Bool := false

/-- `/force/stock` (`force_stock`): rejects an empty `stock` with
HTTP 400 `"stock requis"` before touching the environment or the runner;
otherwise writes `KENBOT_FORCE_STOCK = stock.strip().upper()` and
`KENBOT_DRY_RUN = "1" if dry_run else "0"`, then invokes `runner.main()`
(only ordinary exceptions are caught, with HTTP 500; `SystemExit` escapes
the handler). The middle component records the environment the run was
invoked under (`none` = no run started). -/
def force_stock (stock : String) (dry_run : Bool) (env : Env)
    (outcome : MainOutcome) : Env × Option Env × ApiResult :=
  if stock = "" then
    (env, none, .httpError 400 "stock requis")
  else
    let env := setEnv env "KENBOT_FORCE_STOCK" (pyUpper (pyStrip stock))
    let env := setEnv env "KENBOT_DRY_RUN" (if dry_run then "1" else "0")
    match outcome with
    | .ok => (env, some env, .reply true "force stock done")
    | .sysExit m => (env, some env, .unhandled m)
    | .exc m => (env, some env, .httpError 500 m)

/-! ## Per-step endpoints (src/api.py lines 127-223)

`/scrape/pages`, `/raw/upload`, `/inventory/upsert`, `/sold/process`,
`/restore/process`, `/price_changed/process`, `/new/publish` each call a
`runner._*_for_api()` helper inside `try`, catch `AttributeError` with the
HTTP 400 `_guard("Ajoute runner...")` message, and catch other exceptions
with HTTP 500. Whether `runner` has each helper attribute is a fact about
the absent `runner` module, so it is an input flag of the embedding
(`helperPresent`); the source comments mark every helper "à ajouter". -/

/-- Outcome of one per-step helper call, when the attribute exists. -/
inductive StepOutcome where
  | ok
  | exc (msg : String)
deriving Repr, DecidableEq

/-- The shared `try/except AttributeError/except Exception` shape of the
seven per-step endpoints. -/
def stepEndpoint (helperPresent : Bool) (missingMsg okMsg : String)
    (outcome : StepOutcome) : ApiResult :=
  if helperPresent then
    match outcome with
    | .ok => .reply true okMsg
    | .exc m => .httpError 500 m
  else
    .httpError 400 missingMsg

/-- Which `_*_for_api` helper attributes the `runner` module exposes. -/
structure RunnerHelpers where
  fetch_listing_pages_for_api : Bool
  upload_raw_for_api : Bool
  upsert_inventory_for_api : Bool
  process_sold_for_api : Bool
  process_restore_for_api : Bool
  process_price_changed_for_api : Bool
  publish_new_for_api : Bool
deriving Repr, DecidableEq

/-- Modelled from the spec: the `runner` module itself is not among the
sources; every per-step helper is marked "à ajouter" (to be added) in the
`src/api.py` comments, and the spec design note describes the glue layer
as having attribute-missing guards that "must become" a checked interface.
So no helper attribute is present. -/
def runnerHelpers : RunnerHelpers :=
  ⟨false, false, false, false, false, false, false⟩

/-- `/scrape/pages` (`scrape_pages`). -/
def scrape_pages (h : RunnerHelpers) (outcome : StepOutcome) : ApiResult :=
  stepEndpoint h.fetch_listing_pages_for_api
    "Ajoute runner._fetch_listing_pages_for_api() (helper API) ou utilise /run."
    "scrape pages ok" outcome

/-- `/raw/upload` (`raw_upload`). -/
def raw_upload (h : RunnerHelpers) (outcome : StepOutcome) : ApiResult :=
  stepEndpoint h.upload_raw_for_api
    "Ajoute runner._upload_raw_for_api() ou définis upload_raw_pages() + appelle-la dans /run."
    "raw upload ok" outcome

/-- `/inventory/upsert` (`inventory_upsert`). -/
def inventory_upsert (h : RunnerHelpers) (outcome : StepOutcome) : ApiResult :=
  stepEndpoint h.upsert_inventory_for_api
    "Ajoute runner._upsert_inventory_for_api() ou utilise /run."
    "inventory upsert ok" outcome

/-- `/sold/process` (`process_sold`). -/
def process_sold (h : RunnerHelpers) (outcome : StepOutcome) : ApiResult :=
  stepEndpoint h.process_sold_for_api
    "Ajoute runner._process_sold_for_api() ou utilise /run."
    "sold processed" outcome

/-- `/restore/process` (`process_restore`). -/
def process_restore (h : RunnerHelpers) (outcome : StepOutcome) : ApiResult :=
  stepEndpoint h.process_restore_for_api
    "Ajoute runner._process_restore_for_api() ou utilise /run."
    "restore processed" outcome

/-- `/price_changed/process` (`process_price_changed`). -/
def process_price_changed (h : RunnerHelpers) (outcome : StepOutcome) : ApiResult :=
  stepEndpoint h.process_price_changed_for_api
    "Ajoute runner._process_price_changed_for_api() ou utilise /run."
    "price_changed processed" outcome

/-- `/new/publish` (`publish_new`). -/
def publish_new (h : RunnerHelpers) (outcome : StepOutcome) : ApiResult :=
  stepEndpoint h.publish_new_for_api
    "Ajoute runner._publish_new_for_api() ou utilise /run."
    "new published" outcome

/-! ## `/posts/sample` and `/inventory/sample` (src/api.py lines 271-298)

Both endpoints slice `list(map.items())[: max(1, min(limit, 50))]`. The
maps are embedded as association lists (Python dict items are ordered). -/

/-- The slice bound `max(1, min(limit, 50))` of the sample endpoints,
as a list-take count. It is always at least 1, so the Python slice
semantics for non-positive bounds is never exercised. -/
def sample_count (limit : Int) : Nat :=
  (max 1 (min limit 50)).toNat

/-- `/posts/sample` (`posts_sample`): first `max(1, min(limit, 50))`
entries of the posts map (default `limit` is 10). -/
def posts_sample {α : Type} (posts : List (String × α)) (limit : Int) :
    List (String × α) :=
  posts.take (sample_count limit)

/-- `/inventory/sample` (`inventory_sample`): first `max(1, min(limit, 50))`
entries of the inventory map (default `limit` is 10). -/
def inventory_sample {α : Type} (inv : List (String × α)) (limit : Int) :
    List (String × α) :=
  inv.take (sample_count limit)

/-! ## Core: Reconciler, Post Synchronizer, Sticker Cache Manager

The core lives in the `runner` module, which is not among the sources;
these definitions are modelled from the specification (spec §3, §4). -/

namespace Core

/-- Post lifecycle state of a `PostMapEntry` (spec §3: ACTIVE | SOLD). -/
inductive PState where
  | ACTIVE
  | SOLD
deriving Repr, DecidableEq

/-- Lifecycle class of a stock id in one reconciliation pass
(spec §4.1, glossary: NEW, SOLD, RESTORED, PRICE_CHANGED, ACTIVE no-op). -/
inductive LifeClass where
  | NEW
  | RESTORED
  | PRICE_CHANGED
  | ACTIVE_NOOP
deriving Repr, DecidableEq

/-- Modelled from the spec: classification of one current record, spec
§4.1 steps 2-5. `previous` is the last-known inventory map
(stock id → price), `postMap` gives each stock id's `PostMapEntry` state
(`none` = no entry). A record is `(stock_id, price)`. A stock id present
in `previous` is PRICE_CHANGED when the price differs, else an ACTIVE
no-op; a stock id absent from `previous` is RESTORED when its existing
PostMapEntry is in state SOLD, else NEW. -/
def classify (previous : List (String × Int)) (postMap : List (String × PState))
    (rec : String × Int) : LifeClass :=
  match previous.lookup rec.1 with
  | some p => if p ≠ rec.2 then .PRICE_CHANGED else .ACTIVE_NOOP
  | none =>
    match postMap.lookup rec.1 with
    | some .SOLD => .RESTORED
    | _ => .NEW

/-- The event sets of one reconciliation pass (spec §4.1). -/
structure ReconcileResult where
  newIds : List String
  restoredIds : List String
  priceChangedIds : List String
  activeIds : List String
  soldIds : List String
deriving Repr, DecidableEq

/-- Modelled from the spec: `reconcile` (spec §4.1 steps 1-5, options not
applied: steps 6-7 narrow or truncate the emitted events, classification
is steps 2-5). NEW/RESTORED/PRICE_CHANGED/ACTIVE partition the current
snapshot by `classify`; SOLD is `P − C` restricted to stock ids whose
PostMapEntry state is ACTIVE (idempotence: already-SOLD entries are not
re-emitted). -/
def reconcile (previous : List (String × Int)) (postMap : List (String × PState))
    (current : List (String × Int)) : ReconcileResult where
  newIds :=
    (current.filter (fun r => classify previous postMap r = .NEW)).map Prod.fst
  restoredIds :=
    (current.filter (fun r => classify previous postMap r = .RESTORED)).map Prod.fst
  priceChangedIds :=
    (current.filter (fun r => classify previous postMap r = .PRICE_CHANGED)).map Prod.fst
  activeIds :=
    (current.filter (fun r => classify previous postMap r = .ACTIVE_NOOP)).map Prod.fst
  soldIds :=
    (previous.map Prod.fst).filter
      (fun s => decide (s ∉ current.map Prod.fst ∧ postMap.lookup s = some PState.ACTIVE))

/-- Number of lifecycle classes of one reconciliation result containing
the stock id `s` (states "classified into exactly one class"). -/
def classCount (R : ReconcileResult) (s : String) : Nat :=
  (if s ∈ R.newIds then 1 else 0) + (if s ∈ R.restoredIds then 1 else 0) +
    (if s ∈ R.priceChangedIds then 1 else 0) + (if s ∈ R.activeIds then 1 else 0)

/-- `PostMapEntry` (spec §3): post handle, canonical base text, lifecycle
state, last price reflected in the base text. -/
structure PostMapEntry where
  stock_id : String
  post_id : String
  base_text : String
  current_state : PState
  last_price : Int
deriving Repr, DecidableEq

/-- Modelled from the spec: the SOLD banner appended to the base text
(spec §4.2 composes display text as `base_text + SOLD banner`; the banner
text itself is not fixed by the spec, any fixed string satisfies the
stated invariants). -/
def SOLD_BANNER : String := "\n\n*** VENDU / SOLD ***"

/-- Modelled from the spec: rendering of `base_text` from a vehicle
record's stock id and price (spec §4.2 NEW/PRICE_CHANGED re-derive the
base text from the record; the concrete template is not fixed by the
spec, any price-determined rendering satisfies the stated invariants). -/
def renderBaseText (stock_id : String) (price : Int) : String :=
  stock_id ++ " - " ++ toString price ++ " $"

/-- Modelled from the spec: the SOLD transition (spec §4.2): display text
is `base_text + SOLD banner`, state becomes SOLD, `base_text` untouched.
Returns (updated entry, displayed post text). -/
def applySold (e : PostMapEntry) : PostMapEntry × String :=
  ({ e with current_state := .SOLD }, e.base_text ++ SOLD_BANNER)

/-- Modelled from the spec: the RESTORED transition (spec §4.2): display
text is `base_text` alone (banner removed), state becomes ACTIVE. -/
def applyRestored (e : PostMapEntry) : PostMapEntry × String :=
  ({ e with current_state := .ACTIVE }, e.base_text)

/-- Modelled from the spec: the PRICE_CHANGED transition (spec §4.2):
`base_text` is re-rendered from the record's new price; if the current
state is SOLD the banner is reapplied on top; `last_price` updated. -/
def applyPriceChanged (e : PostMapEntry) (newPrice : Int) :
    PostMapEntry × String :=
  let bt := renderBaseText e.stock_id newPrice
  ({ e with base_text := bt, last_price := newPrice },
   if e.current_state = .SOLD then bt ++ SOLD_BANNER else bt)

/-- `StickerCacheEntry` (spec §3): VIN, storage path, fetch time. -/
structure StickerCacheEntry where
  vin : String
  storage_path : String
  fetched_at : Nat
deriving Repr, DecidableEq

/-- Modelled from the spec: the storage path derived deterministically
from the VIN (spec §4.3; the concrete scheme is not fixed by the spec). -/
def stickerPath (vin : String) : String :=
  "stickers/" ++ vin ++ ".pdf"

/-- Result of one `ensureCached` call: the entry, the cache afterwards,
and how many fetches from the external Sticker Source were performed. -/
structure EnsureResult where
  entry : StickerCacheEntry
  cache : List (String × StickerCacheEntry)
  fetches : Nat
deriving Repr, DecidableEq

/-- Modelled from the spec: `ensureCached(VIN)` (spec §4.3): validates the
VIN is exactly 17 characters (else ValidationError); on a cache hit
returns the stored entry unchanged with no fetch; on a miss performs one
fetch, stores a new entry at the VIN-derived path, and returns it. `now`
is the fetch timestamp supplied by the environment. -/
def ensure_sticker_cached (cache : List (String × StickerCacheEntry))
    (vin : String) (now : Nat) : Except String EnsureResult :=
  if pyLen vin ≠ 17 then
    .error "ValidationError"
  else
    match cache.lookup vin with
    | some e => .ok ⟨e, cache, 0⟩
    | none =>
      let e : StickerCacheEntry := ⟨vin, stickerPath vin, now⟩
      .ok ⟨e, (vin, e) :: cache, 1⟩

end Core

/-! ## Helper lemmas -/

/-- An environment with every variable unset. -/
def emptyEnv : Env := fun _ => none

lemma set_env_bool_other (env : Env) (k : String) (v : Option Bool)
    {q : String} (h : q ≠ k) : _set_env_bool env k v q = env q := by
  cases v <;> simp [_set_env_bool, setEnv, h]

lemma set_env_int_other (env : Env) (k : String) (v : Option Int)
    {q : String} (h : q ≠ k) : _set_env_int env k v q = env q := by
  cases v <;> simp [_set_env_int, setEnv, h]

lemma set_env_str_other (env : Env) (k : String) (v : Option String)
    {q : String} (h : q ≠ k) : _set_env_str env k v q = env q := by
  cases v <;> simp [_set_env_str, setEnv, h]

lemma set_env_bool_none (env : Env) (k : String) : _set_env_bool env k none = env := rfl

lemma set_env_int_none (env : Env) (k : String) : _set_env_int env k none = env := rfl

lemma set_env_str_none (env : Env) (k : String) : _set_env_str env k none = env := rfl

lemma apply_options_dry_run (env : Env) (opt : RunOptions) :
    _apply_options env opt "KENBOT_DRY_RUN" =
      opt.dry_run.elim (env "KENBOT_DRY_RUN")
        (fun b => some (if b then "1" else "0")) := by
  unfold _apply_options
  rw [set_env_int_other _ _ _ (by decide), set_env_bool_other _ _ _ (by decide),
    set_env_str_other _ _ _ (by decide), set_env_int_other _ _ _ (by decide)]
  cases opt.dry_run <;> simp [_set_env_bool, setEnv]

lemma apply_options_max_targets (env : Env) (opt : RunOptions) :
    _apply_options env opt "KENBOT_MAX_TARGETS" =
      opt.max_targets.elim (env "KENBOT_MAX_TARGETS")
        (fun n => some (toString n)) := by
  unfold _apply_options
  rw [set_env_int_other _ _ _ (by decide), set_env_bool_other _ _ _ (by decide),
    set_env_str_other _ _ _ (by decide)]
  rcases hm : opt.max_targets with _ | n
  · rw [set_env_int_none, set_env_bool_other _ _ _ (by decide)]
    rfl
  · simp [_set_env_int, setEnv]

lemma apply_options_force_stock (env : Env) (opt : RunOptions) :
    _apply_options env opt "KENBOT_FORCE_STOCK" =
      opt.force_stock.elim (env "KENBOT_FORCE_STOCK")
        (fun s => if s = "" then env "KENBOT_FORCE_STOCK"
                  else some (pyUpper (pyStrip s))) := by
  unfold _apply_options
  rw [set_env_int_other _ _ _ (by decide), set_env_bool_other _ _ _ (by decide)]
  rcases hf : opt.force_stock with _ | s
  · rw [show forceStockEnvValue none = none from rfl, set_env_str_none,
      set_env_int_other _ _ _ (by decide), set_env_bool_other _ _ _ (by decide)]
    rfl
  · by_cases hs : s = ""
    · rw [show forceStockEnvValue (some s) = none from by simp [forceStockEnvValue, hs],
        set_env_str_none, set_env_int_other _ _ _ (by decide),
        set_env_bool_other _ _ _ (by decide)]
      simp [hs]
    · rw [show forceStockEnvValue (some s) = some (pyUpper (pyStrip s)) from by
        simp [forceStockEnvValue, hs]]
      simp [_set_env_str, setEnv, hs]

lemma apply_options_rebuild_posts (env : Env) (opt : RunOptions) :
    _apply_options env opt "KENBOT_REBUILD_POSTS" =
      opt.rebuild_posts.elim (env "KENBOT_REBUILD_POSTS")
        (fun b => some (if b then "1" else "0")) := by
  unfold _apply_options
  rw [set_env_int_other _ _ _ (by decide)]
  rcases hr : opt.rebuild_posts with _ | b
  · rw [set_env_bool_none, set_env_str_other _ _ _ (by decide),
      set_env_int_other _ _ _ (by decide), set_env_bool_other _ _ _ (by decide)]
    rfl
  · simp [_set_env_bool, setEnv]

lemma apply_options_rebuild_limit (env : Env) (opt : RunOptions) :
    _apply_options env opt "KENBOT_REBUILD_LIMIT" =
      opt.rebuild_limit.elim (env "KENBOT_REBUILD_LIMIT")
        (fun n => some (toString n)) := by
  unfold _apply_options
  rcases hl : opt.rebuild_limit with _ | n
  · rw [set_env_int_none, set_env_bool_other _ _ _ (by decide),
      set_env_str_other _ _ _ (by decide), set_env_int_other _ _ _ (by decide),
      set_env_bool_other _ _ _ (by decide)]
    rfl
  · simp [_set_env_int, setEnv]

lemma apply_options_other (env : Env) (opt : RunOptions) {q : String}
    (h1 : q ≠ "KENBOT_DRY_RUN") (h2 : q ≠ "KENBOT_MAX_TARGETS")
    (h3 : q ≠ "KENBOT_FORCE_STOCK") (h4 : q ≠ "KENBOT_REBUILD_POSTS")
    (h5 : q ≠ "KENBOT_REBUILD_LIMIT") :
    _apply_options env opt q = env q := by
  unfold _apply_options
  rw [set_env_int_other _ _ _ h5, set_env_bool_other _ _ _ h4,
    set_env_str_other _ _ _ h3, set_env_int_other _ _ _ h2,
    set_env_bool_other _ _ _ h1]

/-! ## Claim theorems -/

/-- Claim C2: `/stickers/cache_one` fails with HTTP 400 and performs no
cache or fetch call exactly when `vin` is empty or its whitespace-stripped
form is not 17 characters long; on a 17-character stripped form it invokes
`ensure_sticker_cached` with the stripped, uppercased VIN. -/
theorem cache_one_sticker_validation (vin : String) :
    (cache_one_sticker vin = .error (400, "VIN invalide") ↔
      vin = "" ∨ pyLen (pyStrip vin) ≠ 17) ∧
    (pyLen (pyStrip vin) = 17 →
      cache_one_sticker vin = .ok (pyUpper (pyStrip vin))) := by
  unfold cache_one_sticker
  by_cases hv : vin = ""
  · subst hv
    refine ⟨by simp, fun h => absurd h (by decide)⟩
  · by_cases hl : pyLen (pyStrip vin) = 17
    · simp [hv, hl]
    · simp [hv, hl]

/-- Witness for C2 at a concrete VIN with surrounding whitespace and
lowercase letters. -/
theorem cache_one_sticker_validation_witness :
    pyLen (pyStrip " 1c4rjfbg5lc123456 ") = 17 ∧
    cache_one_sticker " 1c4rjfbg5lc123456 " = .ok "1C4RJFBG5LC123456" := by
  refine ⟨by decide, ?_⟩
  have h := (cache_one_sticker_validation " 1c4rjfbg5lc123456 ").2 (by decide)
  rw [h]
  rfl

/-- Claim C4: applying SOLD then RESTORED to a `PostMapEntry` leaves
`base_text` unchanged and displays exactly the original base text; neither
the SOLD nor the RESTORED transition overwrites `base_text`. -/
theorem sold_restore_round_trip (e : Core.PostMapEntry) :
    (Core.applySold e).1.base_text = e.base_text ∧
    (Core.applyRestored e).1.base_text = e.base_text ∧
    (Core.applyRestored (Core.applySold e).1).1.base_text = e.base_text ∧
    (Core.applyRestored (Core.applySold e).1).2 = e.base_text :=
  ⟨rfl, rfl, rfl, rfl⟩

/-- Claim C6: `/run` reports `ok=True, "run done"` exactly when
`runner.main()` returns without raising; `SystemExit` surfaces as an
HTTP 400 failure carrying the fault message, any other exception as an
HTTP 500 failure. -/
theorem run_all_success_iff (opt : RunOptions) (env : Env) (oc : MainOutcome) :
    ((run_all opt env oc).2 = .reply true "run done" ↔ oc = .ok) ∧
    (∀ m, oc = .sysExit m → (run_all opt env oc).2 = .httpError 400 m) ∧
    (∀ m, oc = .exc m → (run_all opt env oc).2 = .httpError 500 m) := by
  cases oc <;> simp [run_all]

/-- Witness for C6 at a concrete aborting run. -/
theorem run_all_success_iff_witness :
    (run_all {} emptyEnv (.sysExit "concurrent run")).2 =
      .httpError 400 "concurrent run" :=
  (run_all_success_iff {} emptyEnv (.sysExit "concurrent run")).2.1
    "concurrent run" rfl

/-- Claim C7: `/force/stock` rejects an empty stock with HTTP 400 and
starts no run; otherwise the run is invoked under an environment holding
the trimmed, uppercased stock id and the dry-run flag exactly as passed;
the `dry_run` query parameter defaults to `False`. -/
theorem force_stock_spec (stock : String) (d : Bool) (env : Env)
    (oc : MainOutcome) :
    (stock = "" →
      force_stock stock d env oc = (env, none, .httpError 400 "stock requis")) ∧
    (stock ≠ "" → ∀ env2, (force_stock stock d env oc).2.1 = some env2 →
      env2 "KENBOT_FORCE_STOCK" = some (pyUpper (pyStrip stock)) ∧
      env2 "KENBOT_DRY_RUN" = some (if d then "1" else "0")) ∧
    (stock ≠ "" → (force_stock stock d env oc).2.1 ≠ none) ∧
    force_stock_default_dry_run = false := by
  refine ⟨?_, ?_, ?_, rfl⟩
  · intro h
    simp [force_stock, h]
  · intro h env2 h2
    cases oc <;> simp [force_stock, h] at h2 <;> subst h2 <;>
      exact ⟨by simp [setEnv], by simp [setEnv]⟩
  · intro h
    cases oc <;> simp [force_stock, h]

/-- Witness for C7: the empty stock is rejected, and a concrete non-empty
stock records the uppercased id and the dry-run flag. -/
theorem force_stock_spec_witness :
    force_stock "" false emptyEnv .ok = (emptyEnv, none, .httpError 400 "stock requis") ∧
    (setEnv (setEnv emptyEnv "KENBOT_FORCE_STOCK" (pyUpper (pyStrip "ab12")))
        "KENBOT_DRY_RUN" "1") "KENBOT_FORCE_STOCK" = some (pyUpper (pyStrip "ab12")) ∧
    (setEnv (setEnv emptyEnv "KENBOT_FORCE_STOCK" (pyUpper (pyStrip "ab12")))
        "KENBOT_DRY_RUN" "1") "KENBOT_DRY_RUN" = some "1" := by
  refine ⟨(force_stock_spec "" false emptyEnv .ok).1 rfl, ?_, ?_⟩
  · exact ((force_stock_spec "ab12" true emptyEnv .ok).2.1 (by decide) _ rfl).1
  · exact ((force_stock_spec "ab12" true emptyEnv .ok).2.1 (by decide) _ rfl).2

/-- Claim C10: `/posts/sample` and `/inventory/sample` return at most
`min(50, max(1, limit))` entries; a non-positive limit is clamped up to 1
(so a non-empty map still yields one entry), and a limit above 50 is
capped to 50. -/
theorem sample_clamp {α : Type} (posts inv : List (String × α)) (limit : Int) :
    ((posts_sample posts limit).length : Int) ≤ min 50 (max 1 limit) ∧
    ((inventory_sample inv limit).length : Int) ≤ min 50 (max 1 limit) ∧
    (limit ≤ 0 → sample_count limit = 1 ∧
      (posts ≠ [] → (posts_sample posts limit).length = 1) ∧
      (inv ≠ [] → (inventory_sample inv limit).length = 1)) ∧
    (50 < limit → sample_count limit = 50) := by
  have hc : (sample_count limit : Int) = min 50 (max 1 limit) := by
    unfold sample_count
    omega
  have hp : (posts_sample posts limit).length = min (sample_count limit) posts.length := by
    simp [posts_sample]
  have hi : (inventory_sample inv limit).length = min (sample_count limit) inv.length := by
    simp [inventory_sample]
  refine ⟨by rw [hp]; omega, by rw [hi]; omega, ?_, by intro h; omega⟩
  intro h
  have h1 : sample_count limit = 1 := by omega
  refine ⟨h1, fun hne => ?_, fun hne => ?_⟩
  · have := List.length_pos.mpr hne
    rw [hp, h1]
    omega
  · have := List.length_pos.mpr hne
    rw [hi, h1]
    omega

/-- Witness for C10: a negative limit on a one-entry posts map returns one
entry, and a limit of 60 is capped to 50. -/
theorem sample_clamp_witness :
    (posts_sample [("a", 1)] (-3)).length = 1 ∧ sample_count 60 = 50 :=
  ⟨((sample_clamp [("a", 1)] ([] : List (String × Nat)) (-3)).2.2.1
      (by decide)).2.1 (by decide),
   (sample_clamp ([] : List (String × Nat)) [] 60).2.2.2 (by decide)⟩

/-- Claim C1 counterexample: handling `/run` with `dry_run = true` writes
the `KENBOT_DRY_RUN` environment variable (which was unset) before
invoking the core, refuting "never communicated by mutating ambient
process environment state". -/
theorem run_all_writes_env_counterexample :
    emptyEnv "KENBOT_DRY_RUN" = none ∧
    (run_all { dry_run := some true } emptyEnv .ok).1 "KENBOT_DRY_RUN" = some "1" :=
  ⟨rfl, rfl⟩

/-- Claim C1 (amended): `/run` communicates every supplied option to the
core precisely by mutating the process environment before invoking
`runner.main()`: the environment the core runs under is
`_apply_options` of the request options, with each non-`None` field
(force_stock additionally non-empty) written to its `KENBOT_*` key. -/
theorem run_all_env_communication (opt : RunOptions) (env : Env)
    (oc : MainOutcome) :
    (run_all opt env oc).1 = _apply_options env opt ∧
    (∀ b, opt.dry_run = some b →
      (run_all opt env oc).1 "KENBOT_DRY_RUN" = some (if b then "1" else "0")) ∧
    (∀ n, opt.max_targets = some n →
      (run_all opt env oc).1 "KENBOT_MAX_TARGETS" = some (toString n)) ∧
    (∀ s, opt.force_stock = some s → s ≠ "" →
      (run_all opt env oc).1 "KENBOT_FORCE_STOCK" = some (pyUpper (pyStrip s))) ∧
    (∀ b, opt.rebuild_posts = some b →
      (run_all opt env oc).1 "KENBOT_REBUILD_POSTS" = some (if b then "1" else "0")) ∧
    (∀ n, opt.rebuild_limit = some n →
      (run_all opt env oc).1 "KENBOT_REBUILD_LIMIT" = some (toString n)) := by
  have henv : (run_all opt env oc).1 = _apply_options env opt := by
    cases oc <;> rfl
  refine ⟨henv, ?_, ?_, ?_, ?_, ?_⟩
  · intro b hb
    rw [henv, apply_options_dry_run, hb]
    rfl
  · intro n hn
    rw [henv, apply_options_max_targets, hn]
    rfl
  · intro s hs hne
    rw [henv, apply_options_force_stock, hs]
    simp [hne]
  · intro b hb
    rw [henv, apply_options_rebuild_posts, hb]
    rfl
  · intro n hn
    rw [henv, apply_options_rebuild_limit, hn]
    rfl

/-- Witness for the amended C1 at a concrete request. -/
theorem run_all_env_communication_witness :
    (run_all { dry_run := some false } emptyEnv .ok).1 "KENBOT_DRY_RUN" = some "0" :=
  (run_all_env_communication { dry_run := some false } emptyEnv .ok).2.1 false rfl

/-- Claim C9 counterexample: the `force_stock` field set to the empty
string is not `None`, yet `_apply_options` leaves `KENBOT_FORCE_STOCK`
unwritten, refuting "writes exactly those KENBOT_* keys whose
corresponding option field is not None". -/
theorem apply_options_empty_force_stock_counterexample :
    ({ force_stock := some "" } : RunOptions).force_stock ≠ none ∧
    _apply_options emptyEnv { force_stock := some "" } "KENBOT_FORCE_STOCK" = none :=
  ⟨by decide, rfl⟩

/-- Claim C9 (amended): `_apply_options` writes exactly the `KENBOT_*`
keys whose option field is not `None` — except `KENBOT_FORCE_STOCK`, which
is skipped also when `force_stock` is the empty string — and leaves every
other key unchanged; consequently `KENBOT_REBUILD_POSTS='1'` set by
`/rebuild/posts` persists into a later `/run` request whose options omit
`rebuild_posts`. -/
theorem apply_options_exact_writes (env : Env) (opt : RunOptions) :
    _apply_options env opt "KENBOT_DRY_RUN" =
      opt.dry_run.elim (env "KENBOT_DRY_RUN")
        (fun b => some (if b then "1" else "0")) ∧
    _apply_options env opt "KENBOT_MAX_TARGETS" =
      opt.max_targets.elim (env "KENBOT_MAX_TARGETS")
        (fun n => some (toString n)) ∧
    _apply_options env opt "KENBOT_FORCE_STOCK" =
      opt.force_stock.elim (env "KENBOT_FORCE_STOCK")
        (fun s => if s = "" then env "KENBOT_FORCE_STOCK"
                  else some (pyUpper (pyStrip s))) ∧
    _apply_options env opt "KENBOT_REBUILD_POSTS" =
      opt.rebuild_posts.elim (env "KENBOT_REBUILD_POSTS")
        (fun b => some (if b then "1" else "0")) ∧
    _apply_options env opt "KENBOT_REBUILD_LIMIT" =
      opt.rebuild_limit.elim (env "KENBOT_REBUILD_LIMIT")
        (fun n => some (toString n)) ∧
    (∀ q, q ≠ "KENBOT_DRY_RUN" → q ≠ "KENBOT_MAX_TARGETS" →
      q ≠ "KENBOT_FORCE_STOCK" → q ≠ "KENBOT_REBUILD_POSTS" →
      q ≠ "KENBOT_REBUILD_LIMIT" → _apply_options env opt q = env q) ∧
    (∀ (limit : Int) (oc : MainOutcome) (opt2 : RunOptions) (oc2 : MainOutcome),
      opt2.rebuild_posts = none →
      (run_all opt2 (rebuild_posts limit env oc).1 oc2).1 "KENBOT_REBUILD_POSTS" =
        some "1") := by
  refine ⟨apply_options_dry_run env opt, apply_options_max_targets env opt,
    apply_options_force_stock env opt, apply_options_rebuild_posts env opt,
    apply_options_rebuild_limit env opt,
    fun q h1 h2 h3 h4 h5 => apply_options_other env opt h1 h2 h3 h4 h5, ?_⟩
  intro limit oc opt2 oc2 h2
  have henv : (run_all opt2 (rebuild_posts limit env oc).1 oc2).1 =
      _apply_options (rebuild_posts limit env oc).1 opt2 := by
    cases oc2 <;> rfl
  rw [henv, apply_options_rebuild_posts, h2]
  have h1 : (rebuild_posts limit env oc).1 =
      setEnv (setEnv env "KENBOT_REBUILD_POSTS" "1") "KENBOT_REBUILD_LIMIT"
        (toString limit) := by
    cases oc <;> rfl
  rw [h1]
  simp [Option.elim, setEnv]

/-- Witness for the amended C9: the rebuild flag set by `/rebuild/posts`
persists through a later `/run` that omits every option. -/
theorem apply_options_exact_writes_witness :
    (run_all {} (rebuild_posts 300 emptyEnv .ok).1 .ok).1 "KENBOT_REBUILD_POSTS" =
      some "1" :=
  (apply_options_exact_writes emptyEnv {}).2.2.2.2.2.2 300 .ok {} .ok rfl

lemma stepEndpoint_guard_iff (p : Bool) (mm om : String) (oc : StepOutcome) :
    stepEndpoint p mm om oc = .httpError 400 mm ↔ p = false := by
  cases p
  · simp [stepEndpoint]
  · cases oc <;> simp [stepEndpoint]

lemma stepEndpoint_ok_iff (p : Bool) (mm om : String) :
    stepEndpoint p mm om .ok = .reply true om ↔ p = true := by
  cases p <;> simp [stepEndpoint]

/-- Claim C8 counterexample: with the helper attributes the sources
document (`runner` lacking every `_*_for_api` helper), each of the seven
per-step endpoints takes the HTTP 400 "helper missing" guard branch, so
the branch is reachable. -/
theorem step_endpoints_guard_counterexample :
    scrape_pages runnerHelpers .ok =
      .httpError 400 "Ajoute runner._fetch_listing_pages_for_api() (helper API) ou utilise /run." ∧
    raw_upload runnerHelpers .ok =
      .httpError 400 "Ajoute runner._upload_raw_for_api() ou définis upload_raw_pages() + appelle-la dans /run." ∧
    inventory_upsert runnerHelpers .ok =
      .httpError 400 "Ajoute runner._upsert_inventory_for_api() ou utilise /run." ∧
    process_sold runnerHelpers .ok =
      .httpError 400 "Ajoute runner._process_sold_for_api() ou utilise /run." ∧
    process_restore runnerHelpers .ok =
      .httpError 400 "Ajoute runner._process_restore_for_api() ou utilise /run." ∧
    process_price_changed runnerHelpers .ok =
      .httpError 400 "Ajoute runner._process_price_changed_for_api() ou utilise /run." ∧
    publish_new runnerHelpers .ok =
      .httpError 400 "Ajoute runner._publish_new_for_api() ou utilise /run." :=
  ⟨rfl, rfl, rfl, rfl, rfl, rfl, rfl⟩

/-- Claim C8 (amended): the glue layer does perform runtime capability
probing: each per-step endpoint returns its HTTP 400 "helper missing"
guard exactly when the corresponding `runner` helper attribute is absent
(and its success reply exactly when the helper is present and succeeds);
in this repository no helper is present, so the guard branch is live. -/
theorem step_endpoints_probe (h : RunnerHelpers) (oc : StepOutcome) :
    (scrape_pages h oc =
        .httpError 400 "Ajoute runner._fetch_listing_pages_for_api() (helper API) ou utilise /run." ↔
      h.fetch_listing_pages_for_api = false) ∧
    (scrape_pages h .ok = .reply true "scrape pages ok" ↔
      h.fetch_listing_pages_for_api = true) ∧
    (raw_upload h oc =
        .httpError 400 "Ajoute runner._upload_raw_for_api() ou définis upload_raw_pages() + appelle-la dans /run." ↔
      h.upload_raw_for_api = false) ∧
    (raw_upload h .ok = .reply true "raw upload ok" ↔
      h.upload_raw_for_api = true) ∧
    (inventory_upsert h oc =
        .httpError 400 "Ajoute runner._upsert_inventory_for_api() ou utilise /run." ↔
      h.upsert_inventory_for_api = false) ∧
    (inventory_upsert h .ok = .reply true "inventory upsert ok" ↔
      h.upsert_inventory_for_api = true) ∧
    (process_sold h oc =
        .httpError 400 "Ajoute runner._process_sold_for_api() ou utilise /run." ↔
      h.process_sold_for_api = false) ∧
    (process_sold h .ok = .reply true "sold processed" ↔
      h.process_sold_for_api = true) ∧
    (process_restore h oc =
        .httpError 400 "Ajoute runner._process_restore_for_api() ou utilise /run." ↔
      h.process_restore_for_api = false) ∧
    (process_restore h .ok = .reply true "restore processed" ↔
      h.process_restore_for_api = true) ∧
    (process_price_changed h oc =
        .httpError 400 "Ajoute runner._process_price_changed_for_api() ou utilise /run." ↔
      h.process_price_changed_for_api = false) ∧
    (process_price_changed h .ok = .reply true "price_changed processed" ↔
      h.process_price_changed_for_api = true) ∧
    (publish_new h oc =
        .httpError 400 "Ajoute runner._publish_new_for_api() ou utilise /run." ↔
      h.publish_new_for_api = false) ∧
    (publish_new h .ok = .reply true "new published" ↔
      h.publish_new_for_api = true) ∧
    runnerHelpers = ⟨false, false, false, false, false, false, false⟩ :=
  ⟨stepEndpoint_guard_iff _ _ _ _, stepEndpoint_ok_iff _ _ _,
   stepEndpoint_guard_iff _ _ _ _, stepEndpoint_ok_iff _ _ _,
   stepEndpoint_guard_iff _ _ _ _, stepEndpoint_ok_iff _ _ _,
   stepEndpoint_guard_iff _ _ _ _, stepEndpoint_ok_iff _ _ _,
   stepEndpoint_guard_iff _ _ _ _, stepEndpoint_ok_iff _ _ _,
   stepEndpoint_guard_iff _ _ _ _, stepEndpoint_ok_iff _ _ _,
   stepEndpoint_guard_iff _ _ _ _, stepEndpoint_ok_iff _ _ _, rfl⟩

/-- Claim C5: for a valid 17-character VIN, a cache hit returns the stored
entry unchanged with no fetch, and starting from a miss, two sequential
`ensureCached` calls perform exactly one fetch in total, the second call
returning the identical entry with the cache unchanged. -/
theorem ensure_sticker_cached_once (cache : List (String × Core.StickerCacheEntry))
    (vin : String) (n1 n2 : Nat) (h17 : pyLen vin = 17) :
    (∀ e, cache.lookup vin = some e →
      Core.ensure_sticker_cached cache vin n1 = .ok ⟨e, cache, 0⟩) ∧
    (cache.lookup vin = none →
      Core.ensure_sticker_cached cache vin n1 =
        .ok ⟨⟨vin, Core.stickerPath vin, n1⟩,
             (vin, (⟨vin, Core.stickerPath vin, n1⟩ : Core.StickerCacheEntry)) :: cache, 1⟩ ∧
      Core.ensure_sticker_cached
          ((vin, (⟨vin, Core.stickerPath vin, n1⟩ : Core.StickerCacheEntry)) :: cache) vin n2 =
        .ok ⟨⟨vin, Core.stickerPath vin, n1⟩,
             (vin, (⟨vin, Core.stickerPath vin, n1⟩ : Core.StickerCacheEntry)) :: cache, 0⟩) := by
  constructor
  · intro e he
    simp [Core.ensure_sticker_cached, h17, he]
  · intro he
    refine ⟨by simp [Core.ensure_sticker_cached, h17, he], ?_⟩
    simp [Core.ensure_sticker_cached, h17, List.lookup]

/-- Witness for C5: a fresh cache, one fetch, then a hit with no fetch. -/
theorem ensure_sticker_cached_once_witness :
    Core.ensure_sticker_cached [] "1C4RJFBG5LC123456" 5 =
      .ok ⟨⟨"1C4RJFBG5LC123456", Core.stickerPath "1C4RJFBG5LC123456", 5⟩,
           [("1C4RJFBG5LC123456",
             (⟨"1C4RJFBG5LC123456", Core.stickerPath "1C4RJFBG5LC123456", 5⟩ :
               Core.StickerCacheEntry))], 1⟩ ∧
    Core.ensure_sticker_cached
        [("1C4RJFBG5LC123456",
          (⟨"1C4RJFBG5LC123456", Core.stickerPath "1C4RJFBG5LC123456", 5⟩ :
            Core.StickerCacheEntry))] "1C4RJFBG5LC123456" 9 =
      .ok ⟨⟨"1C4RJFBG5LC123456", Core.stickerPath "1C4RJFBG5LC123456", 5⟩,
           [("1C4RJFBG5LC123456",
             (⟨"1C4RJFBG5LC123456", Core.stickerPath "1C4RJFBG5LC123456", 5⟩ :
               Core.StickerCacheEntry))], 0⟩ := by
  have h := (ensure_sticker_cached_once [] "1C4RJFBG5LC123456" 5 9 (by decide)).2 rfl
  exact ⟨h.1, h.2⟩

lemma mem_class_iff (prev : List (String × Int)) (pm : List (String × Core.PState))
    (cur : List (String × Int)) (hnd : (cur.map Prod.fst).Nodup)
    {r : String × Int} (hr : r ∈ cur) (c : Core.LifeClass) :
    r.1 ∈ (cur.filter (fun x => Core.classify prev pm x = c)).map Prod.fst ↔
      Core.classify prev pm r = c := by
  constructor
  · intro hm
    simp only [List.mem_map, List.mem_filter, decide_eq_true_eq] at hm
    obtain ⟨q, ⟨hq, hc⟩, he⟩ := hm
    rwa [List.inj_on_of_nodup_map hnd hq hr he] at hc
  · intro hc
    simp only [List.mem_map, List.mem_filter, decide_eq_true_eq]
    exact ⟨r, ⟨hr, hc⟩, rfl⟩

/-- Claim C3: for every pair of snapshots (with the stock ids of the
current snapshot distinct, as snapshots are maps), the event sets of
`reconcile` satisfy NEW ∩ SOLD = ∅, and every stock id of the current
snapshot lies in exactly one of the NEW, RESTORED, PRICE_CHANGED,
ACTIVE-no-op classes. -/
theorem reconcile_classification (prev : List (String × Int))
    (pm : List (String × Core.PState)) (cur : List (String × Int))
    (hnd : (cur.map Prod.fst).Nodup) :
    (∀ s, ¬ (s ∈ (Core.reconcile prev pm cur).newIds ∧
             s ∈ (Core.reconcile prev pm cur).soldIds)) ∧
    (∀ s, s ∈ cur.map Prod.fst →
      Core.classCount (Core.reconcile prev pm cur) s = 1) := by
  constructor
  · rintro s ⟨hn, hs⟩
    simp only [Core.reconcile, List.mem_map, List.mem_filter,
      decide_eq_true_eq] at hn hs
    obtain ⟨r, ⟨hr, _⟩, he⟩ := hn
    exact hs.2.1 ⟨r, hr, he⟩
  · intro s hsm
    obtain ⟨r, hr, he⟩ := List.mem_map.mp hsm
    subst he
    have h1 := mem_class_iff prev pm cur hnd hr .NEW
    have h2 := mem_class_iff prev pm cur hnd hr .RESTORED
    have h3 := mem_class_iff prev pm cur hnd hr .PRICE_CHANGED
    have h4 := mem_class_iff prev pm cur hnd hr .ACTIVE_NOOP
    cases hc : Core.classify prev pm r <;>
      simp [Core.classCount, Core.reconcile, h1, h2, h3, h4, hc]

/-- Witness for C3 at a concrete snapshot pair: previous has A and C,
current has A (repriced), B (fresh) and D (previously sold); B is
classified exactly once. -/
theorem reconcile_classification_witness :
    Core.classCount
      (Core.reconcile [("A", 10000), ("C", 9000)]
        [("A", .ACTIVE), ("C", .ACTIVE), ("D", .SOLD)]
        [("A", 12000), ("B", 8000), ("D", 7000)]) "B" = 1 :=
  (reconcile_classification [("A", 10000), ("C", 9000)]
    [("A", .ACTIVE), ("C", .ACTIVE), ("D", .SOLD)]
    [("A", 12000), ("B", 8000), ("D", 7000)] (by decide)).2 "B" (by decide)

end Kenbot
